import Mathlib

/-!
Verification development for the `Yolo_To_Kitti_Better` repository,
file `yolo_to_kitti.py`.

The Python program converts YOLO-format object-detection labels
(normalized center/size boxes) to KITTI-format labels (absolute pixel
corners), and verifies the result by diffing source/destination folders
and structurally checking every destination label file.

Modelling conventions:
* Python floats are modelled exactly by the rationals `ℚ`; image pixel
  dimensions are natural numbers cast into `ℚ`.
* Python strings that the program splits and inspects character by
  character are modelled as `List Char`; opaque strings (filenames,
  class names as dictionary data) are modelled as `String`.
* Python `str.split()` (split on whitespace runs, dropping empty
  pieces) is modelled by `pySplit`.
* Fallible Python code (expressions that can raise `ValueError` or
  `IndexError`) is modelled with `Option`: `none` models a raised,
  uncaught exception.
* File-system state is passed explicitly: a label file is a list of its
  lines, a folder listing is a list of filenames, and the contents of a
  destination folder after a run are the lists of lines actually
  written before the run finished or aborted.
-/

namespace YoloToKitti

/-! ## Whitespace splitting, modelling the Python expression `line.strip().split()` -/

/-- Python `str.split()` with no separator argument: split the character
list on whitespace and drop the empty pieces.  Note that
`line.strip().split()` and `line.split()` agree in Python, so this single
function models both call sites (source lines 72 and 204). -/
def pySplit (s : List Char) : List (List Char) :=
  (s.splitOnP (fun c => c.isWhitespace)).filter (fun t => !t.isEmpty)

/-! ## Numeric token parsing, modelling the Python calls `int(...)` and `float(...)`
on whitespace-free tokens (source lines 205 and 206).  A `none` result models a
raised `ValueError` (or an `IndexError` for a missing token).  The modelled
grammar is the decimal core of the Python one: an optional sign followed by
digits (for `int`), or by digits with an optional fractional part (for
`float`); exotic float spellings (exponents, `inf`, `nan`, underscores) are
outside the model. -/

/-- Value of a list of decimal digit characters, most significant first. -/
def digitsVal (s : List Char) : ℕ :=
  s.foldl (fun a c => 10 * a + (c.toNat - 48)) 0

/-- Parse a nonempty all-digit token as a natural number. -/
def parseNatDigits? (s : List Char) : Option ℕ :=
  if s ≠ [] ∧ s.all Char.isDigit then some (digitsVal s) else none

/-- Python `int(token)` on a whitespace-free token: optional sign, then digits. -/
def parseInt? : List Char → Option ℤ
  | '-' :: r => (parseNatDigits? r).map (fun n => -(n : ℤ))
  | '+' :: r => (parseNatDigits? r).map (fun n => (n : ℤ))
  | s => (parseNatDigits? s).map (fun n => (n : ℤ))

/-- Unsigned decimal float literal, split into integer-part value,
fractional-part value and fractional-part digit count.  Accepts `12`,
`12.`, `12.5` and `.5`; rejects the empty token, a lone dot and any
non-digit character. -/
def parseUFloatParts? (s : List Char) : Option (ℕ × ℕ × ℕ) :=
  let ip := s.takeWhile (fun c => c ≠ '.')
  match s.dropWhile (fun c => c ≠ '.') with
  | [] => if ip ≠ [] ∧ ip.all Char.isDigit then some (digitsVal ip, 0, 0) else none
  | '.' :: fp =>
    if (ip ≠ [] ∨ fp ≠ []) ∧ ip.all Char.isDigit ∧ fp.all Char.isDigit then
      some (digitsVal ip, digitsVal fp, fp.length)
    else none
  | _ => none

/-- Signed decimal float literal, as sign flag plus unsigned parts. -/
def parseFloatParts? : List Char → Option (Bool × ℕ × ℕ × ℕ)
  | '-' :: r => (parseUFloatParts? r).map (fun p => (true, p))
  | '+' :: r => (parseUFloatParts? r).map (fun p => (false, p))
  | s => (parseUFloatParts? s).map (fun p => (false, p))

/-- Rational value of a parsed float literal. -/
def ratOfFloatParts (p : Bool × ℕ × ℕ × ℕ) : ℚ :=
  let m : ℚ := (p.2.1 : ℚ) + (p.2.2.1 : ℚ) / 10 ^ p.2.2.2
  if p.1 then -m else m

/-- Python `float(token)` on a whitespace-free token, over the modelled
decimal grammar. -/
def parseFloat? (s : List Char) : Option ℚ :=
  (parseFloatParts? s).map ratOfFloatParts

/-! ## Two-decimal formatting, modelling the Python format spec `:.2f`
(source line 224).  The value is scaled by 100 and rounded to the nearest
integer; Mathlib `round` rounds halves up while the Python float formatting
rounds the nearest double to even, a divergence confined to exact ties and to
the sign of a negative zero, neither of which any claim exercises. -/

/-- Decimal digit character for `n % 10`. -/
def digitCh (n : ℕ) : Char := Char.ofNat (48 + n % 10)

/-- Decimal representation, structurally recursive on a fuel argument so
that the kernel can evaluate it; the initial fuel `n + 1` always
suffices because the value shrinks by a factor of ten per step. -/
def natCharsAux : ℕ → ℕ → List Char
  | 0, _ => []
  | fuel + 1, n =>
    if n < 10 then [digitCh n]
    else natCharsAux fuel (n / 10) ++ [digitCh (n % 10)]

/-- Decimal representation of a natural number, most significant digit
first. -/
def natChars (n : ℕ) : List Char := natCharsAux (n + 1) n

/-- Render the integer `c` (the value scaled by 100) as a fixed
two-decimal numeral: optional minus sign, integer part, dot, two digits. -/
def fmt2Int (c : ℤ) : List Char :=
  (if c < 0 then ['-'] else []) ++
    natChars (c.natAbs / 100) ++ '.' :: digitCh (c.natAbs % 100 / 10) :: [digitCh (c.natAbs % 100 % 10)]

/-- Python `f-string` field `x:.2f`: round `100 * x` to the nearest
integer and render with two digits after the dot. -/
def fmt2 (q : ℚ) : List Char := fmt2Int (round (q * 100))

/-! ## Class mapping, modelling source line 215:
`class_name = class_mapping.get(str(class_id), "DontCare")`.
The JSON class mapping is a dictionary from string-encoded ids to names,
modelled as an association list with distinct keys. -/

/-- Python `class_mapping.get(key, "DontCare")`: total lookup with the
sentinel class name as default, so an absent id never raises. -/
def classMappingGet (cm : List (String × String)) (key : String) : String :=
  (cm.lookup key).getD "DontCare"

/-! ## Coordinate conversion, modelling source lines 209 to 212. -/

/-- Source line 209: `x_left = (x_center - width / 2) * image_width`. -/
def xLeft (W : ℕ) (xc w : ℚ) : ℚ := (xc - w / 2) * W

/-- Source line 210: `y_top = (y_center - height / 2) * image_height`. -/
def yTop (H : ℕ) (yc h : ℚ) : ℚ := (yc - h / 2) * H

/-- Source line 211: `x_right = (x_center + width / 2) * image_width`. -/
def xRight (W : ℕ) (xc w : ℚ) : ℚ := (xc + w / 2) * W

/-- Source line 212: `y_bottom = (y_center + height / 2) * image_height`. -/
def yBottom (H : ℕ) (yc h : ℚ) : ℚ := (yc + h / 2) * H

/-- The four absolute corners computed by the converter for one box. -/
def convertCorners (W H : ℕ) (xc yc w h : ℚ) : ℚ × ℚ × ℚ × ℚ :=
  (xLeft W xc w, yTop H yc h, xRight W xc w, yBottom H yc h)

/-- Modelled from the spec: the display formulas of section 4.1 of the
specification, stated verbatim, to be compared with `convertCorners`
which is translated from the source. -/
def specCorners (W H : ℕ) (xc yc w h : ℚ) : ℚ × ℚ × ℚ × ℚ :=
  ((xc - w / 2) * W, (yc - h / 2) * H, (xc + w / 2) * W, (yc + h / 2) * H)

/-! ## KITTI line emission, modelling source lines 214 to 224. -/

/-- Characters written for one box by source line 223/224, the f-string
with fields `class_name`, `truncated` (rendering as `0.0`), `occluded`
(rendering as `0`), `alpha` (rendering as `-1.0`), the four corners under
format `:.2f`, seven literal zeros and a newline. -/
def kittiLine (cn : List Char) (xl yt xr yb : ℚ) : List Char :=
  cn ++ ' ' ::
    (['0', '.', '0'] ++ ' ' ::
      (['0'] ++ ' ' ::
        (['-', '1', '.', '0'] ++ ' ' ::
          (fmt2 xl ++ ' ' ::
            (fmt2 yt ++ ' ' ::
              (fmt2 xr ++ ' ' ::
                (fmt2 yb ++ ' ' ::
                  (['0'] ++ ' ' ::
                    (['0'] ++ ' ' ::
                      (['0'] ++ ' ' ::
                        (['0'] ++ ' ' ::
                          (['0'] ++ ' ' ::
                            (['0'] ++ ' ' ::
                              (['0'] ++ ['\n']))))))))))))))

/-- Parsing of one YOLO label line by source lines 204 to 206:
`parts = line.strip().split()`, then `class_id = int(parts[0])` and the
unpacking `x_center, y_center, width, height = map(float, parts[1:])`.
Any failure (no tokens, a token count other than five, a non-numeric
field) raises in Python; here it yields `none`. -/
def parseYoloLine? (raw : List Char) : Option (ℤ × ℚ × ℚ × ℚ × ℚ) :=
  match pySplit raw with
  | p0 :: [a, b, c, d] =>
    match parseInt? p0, parseFloat? a, parseFloat? b, parseFloat? c, parseFloat? d with
    | some cid, some xc, some yc, some w, some h => some (cid, xc, yc, w, h)
    | _, _, _, _, _ => none
  | _ => none

/-- Full processing of one YOLO label line (source lines 204 to 224):
parse, convert the coordinates, resolve the class name, emit the KITTI
line.  `none` models the uncaught parse exception. -/
def convertLine (W H : ℕ) (cm : List (String × String)) (raw : List Char) :
    Option (List Char) :=
  (parseYoloLine? raw).map fun t =>
    kittiLine ((classMappingGet cm (toString t.1)).toList)
      (xLeft W t.2.1 t.2.2.2.1) (yTop H t.2.2.1 t.2.2.2.2)
      (xRight W t.2.1 t.2.2.2.1) (yBottom H t.2.2.1 t.2.2.2.2)

/-! ## Per-file and per-batch processing, modelling the write loop of source
lines 202 to 224.  The destination file is opened and the converted lines are
written one at a time inside the loop; an exception raised while parsing a
later line therefore leaves the lines already written in the destination
file.  `runFile` returns the list of lines actually written together with an
abort flag (`true` when a parse exception was raised mid-file). -/

def runFile (W H : ℕ) (cm : List (String × String)) :
    List (List Char) → List (List Char) × Bool
  | [] => ([], false)
  | l :: ls =>
    match convertLine W H cm l with
    | none => ([], true)
    | some k =>
      let r := runFile W H cm ls
      (k :: r.1, r.2)

/-- Batch loop of source lines 186 to 226 restricted to the label files it
converts: files are processed in order; an uncaught exception while
processing one file aborts the whole remaining batch.  Returns the
name/content pairs of destination files actually written (the last one
possibly partial) and the abort flag. -/
def runBatch (W H : ℕ) (cm : List (String × String)) :
    List (String × List (List Char)) → List (String × List (List Char)) × Bool
  | [] => ([], false)
  | f :: fs =>
    let r := runFile W H cm f.2
    if r.2 then ([(f.1, r.1)], true)
    else
      let rest := runBatch W H cm fs
      ((f.1, r.1) :: rest.1, rest.2)

/-! ## Verification pass, modelling `verify_conversion` (source lines 11 to
81) for labels, and `print_verification_report` (source lines 84 to 138). -/

/-- Structured form of the error strings appended to
`verification_results[idx]["verification_errors"]` on source lines 66/67
and 74/75.  `emptyFile f` renders as `f: Empty label file` and
`badFormat f n` renders as `f:n: Invalid KITTI format` with `n` the
1-based line number. -/
inductive VError where
  | emptyFile (filename : String)
  | badFormat (filename : String) (lineNum : ℕ)
  deriving DecidableEq

/-- Rendering of a structured error as the Python error string. -/
def VError.render : VError → String
  | .emptyFile f => f ++ ": Empty label file"
  | .badFormat f n => f ++ ":" ++ toString n ++ ": Invalid KITTI format"

/-- Loop of source lines 71 to 75 starting at line number `n`: one
`badFormat` error per line whose token count differs from 15. -/
def fileLineErrors (f : String) (n : ℕ) : List (List Char) → List VError
  | [] => []
  | l :: ls =>
    (if (pySplit l).length ≠ 15 then [VError.badFormat f n] else []) ++
      fileLineErrors f (n + 1) ls

/-- Label-file integrity check of source lines 62 to 75: an empty file
yields the single `emptyFile` error, otherwise each line is checked for
the fixed KITTI field count of 15, with 1-based line numbers. -/
def labelFileErrors (f : String) (lines : List (List Char)) : List VError :=
  if lines = [] then [VError.emptyFile f] else fileLineErrors f 1 lines

/-- Python filename test `f.endswith(".txt")` (source lines 37 to 40). -/
def endsTxt (f : String) : Bool := (".txt".toList).isSuffixOf f.toList

/-- Per-pair verification record built on source lines 43 to 49: counts,
set differences and the error list collected by the integrity pass. -/
structure VerificationResult where
  source_count : ℕ
  destination_count : ℕ
  missing_files : Finset String
  unexpected_files : Finset String
  verification_errors : List VError

/-- One iteration of `verify_conversion` for a labels folder pair (source
lines 36 to 79).  `srcListing` and `dstListing` model `os.listdir` of the
two folders (directory entries are distinct), and `readFile` models
reading the lines of a destination label file.  The Python code iterates
the destination file set to collect errors; since directory entries are
distinct, iterating the filtered listing collects the same errors, in
listing order. -/
def verifyLabelsPair (srcListing dstListing : List String)
    (readFile : String → List (List Char)) : VerificationResult :=
  let src : Finset String := (srcListing.filter (fun f => endsTxt f)).toFinset
  let dst : Finset String := (dstListing.filter (fun f => endsTxt f)).toFinset
  { source_count := src.card
    destination_count := dst.card
    missing_files := src \ dst
    unexpected_files := dst \ src
    verification_errors :=
      (dstListing.filter (fun f => endsTxt f)).flatMap
        (fun f => labelFileErrors f (readFile f)) }

/-- Conditions under which `print_verification_report` keeps `all_passed`
unchanged for one pair (source lines 99, 104, 112 and 121): equal counts,
no missing files, no unexpected files, no integrity errors. -/
def pairOk (r : VerificationResult) : Prop :=
  r.source_count = r.destination_count ∧ r.missing_files = ∅ ∧
    r.unexpected_files = ∅ ∧ r.verification_errors = []

instance (r : VerificationResult) : Decidable (pairOk r) := by
  unfold pairOk; infer_instance

/-- Flag updates performed for one pair by the body of the report loop
(source lines 94 to 134): `all_passed` is cleared by each of the four
failing conditions independently. -/
def pairUpdate (acc : Bool) (r : VerificationResult) : Bool :=
  let a1 := if r.source_count ≠ r.destination_count then false else acc
  let a2 := if r.missing_files ≠ ∅ then false else a1
  let a3 := if r.unexpected_files ≠ ∅ then false else a2
  if r.verification_errors ≠ [] then false else a3

/-- Final value of `all_passed` after the report loop (source lines 93 to
134), the results being iterated in index order. -/
def reportAllPassed (rs : List VerificationResult) : Bool :=
  rs.foldl pairUpdate true

/-- Status word printed by source lines 137/138. -/
def overallStatusLine (rs : List VerificationResult) : String :=
  if reportAllPassed rs then "PASSED" else "FAILED"

/-! ## Helper lemmas about whitespace splitting -/

theorem splitOnP_append_sep {α : Type} {p : α → Bool} {c : α} (hc : p c = true)
    (a b : List α) :
    (a ++ c :: b).splitOnP p = a.splitOnP p ++ b.splitOnP p := by
  induction a with
  | nil => simp [List.splitOnP_cons, List.splitOnP_nil, hc]
  | cons x xs ih =>
    simp only [List.cons_append, List.splitOnP_cons, ih]
    split
    · rfl
    · cases h : xs.splitOnP p with
      | nil => exact absurd h (List.splitOnP_ne_nil _ _)
      | cons hd tl => simp [h]

theorem pySplit_sep {c : Char} (hc : c.isWhitespace = true) (a b : List Char) :
    pySplit (a ++ c :: b) = pySplit a ++ pySplit b := by
  unfold pySplit
  rw [splitOnP_append_sep hc, List.filter_append]

theorem pySplit_space (a b : List Char) :
    pySplit (a ++ ' ' :: b) = pySplit a ++ pySplit b :=
  pySplit_sep (by decide) a b

theorem pySplit_single {s : List Char} (h1 : s ≠ [])
    (h2 : ∀ c ∈ s, c.isWhitespace = false) : pySplit s = [s] := by
  unfold pySplit
  rw [List.splitOnP_eq_single]
  · simp [h1]
  · intro x hx
    simp [h2 x hx]

/-! ## Helper lemmas about two-decimal formatting -/

theorem digitCh_not_ws (n : ℕ) : (digitCh n).isWhitespace = false := by
  unfold digitCh
  have h : n % 10 < 10 := Nat.mod_lt _ (by omega)
  generalize n % 10 = m at h ⊢
  interval_cases m <;> decide

theorem natChars_ne_nil (n : ℕ) : natChars n ≠ [] := by
  unfold natChars natCharsAux
  split
  · simp
  · simp

theorem natCharsAux_not_ws (fuel : ℕ) :
    ∀ n, ∀ c ∈ natCharsAux fuel n, c.isWhitespace = false := by
  induction fuel with
  | zero =>
    intro n c hc
    simp [natCharsAux] at hc
  | succ fuel ih =>
    intro n c hc
    unfold natCharsAux at hc
    split at hc
    · rw [List.mem_singleton] at hc
      subst hc
      exact digitCh_not_ws n
    · rcases List.mem_append.mp hc with h | h
      · exact ih (n / 10) c h
      · rw [List.mem_singleton] at h
        subst h
        exact digitCh_not_ws _

theorem natChars_not_ws (n : ℕ) : ∀ c ∈ natChars n, c.isWhitespace = false :=
  natCharsAux_not_ws (n + 1) n

theorem fmt2Int_ne_nil (c : ℤ) : fmt2Int c ≠ [] := by
  unfold fmt2Int
  simp [natChars_ne_nil]

theorem fmt2Int_not_ws (c : ℤ) : ∀ x ∈ fmt2Int c, x.isWhitespace = false := by
  unfold fmt2Int
  intro x hx
  simp only [List.mem_append, List.mem_cons, List.mem_singleton] at hx
  rcases hx with (h | h) | h | h | h
  · split at h
    · rw [List.mem_singleton] at h; subst h; decide
    · simp at h
  · exact natChars_not_ws _ x h
  · subst h; decide
  · subst h; exact digitCh_not_ws _
  · rcases h with h | h
    · subst h; exact digitCh_not_ws _
    · simp at h

theorem pySplit_fmt2 (q : ℚ) : pySplit (fmt2 q) = [fmt2 q] := by
  unfold fmt2
  exact pySplit_single (fmt2Int_ne_nil _) (fmt2Int_not_ws _)

/-- Tokenisation of an emitted KITTI line: the tokens of the class name
followed by the fourteen fixed-position numeric tokens. -/
theorem pySplit_kittiLine (cn : List Char) (xl yt xr yb : ℚ) :
    pySplit (kittiLine cn xl yt xr yb) =
      pySplit cn ++ [['0', '.', '0'], ['0'], ['-', '1', '.', '0'],
        fmt2 xl, fmt2 yt, fmt2 xr, fmt2 yb,
        ['0'], ['0'], ['0'], ['0'], ['0'], ['0'], ['0']] := by
  unfold kittiLine
  simp only [pySplit_space, pySplit_fmt2,
    show pySplit ['0', '.', '0'] = [['0', '.', '0']] from by decide,
    show pySplit ['0'] = [['0']] from by decide,
    show pySplit ['-', '1', '.', '0'] = [['-', '1', '.', '0']] from by decide,
    show pySplit (['0'] ++ ['\n']) = [['0']] from by decide]
  simp

/-! ## Helper lemmas about the report flag -/

theorem pairUpdate_false (r : VerificationResult) : pairUpdate false r = false := by
  simp [pairUpdate]

theorem foldl_pairUpdate_false (rs : List VerificationResult) :
    rs.foldl pairUpdate false = false := by
  induction rs with
  | nil => rfl
  | cons r rs ih => rw [List.foldl_cons, pairUpdate_false, ih]

theorem pairUpdate_true_of {r : VerificationResult} (h : pairOk r) :
    pairUpdate true r = true := by
  obtain ⟨h1, h2, h3, h4⟩ := h
  simp [pairUpdate, h1, h2, h3, h4]

theorem pairUpdate_true_of_not {r : VerificationResult} (h : ¬ pairOk r) :
    pairUpdate true r = false := by
  unfold pairOk at h
  by_cases c1 : r.source_count = r.destination_count
  · by_cases c2 : r.missing_files = ∅
    · by_cases c3 : r.unexpected_files = ∅
      · by_cases c4 : r.verification_errors = []
        · exact absurd ⟨c1, c2, c3, c4⟩ h
        · simp [pairUpdate, c4]
      · simp [pairUpdate, c3]
    · simp [pairUpdate, c2]
  · simp [pairUpdate, c1]

theorem reportAllPassed_iff (rs : List VerificationResult) :
    reportAllPassed rs = true ↔ ∀ r ∈ rs, pairOk r := by
  unfold reportAllPassed
  induction rs with
  | nil => simp
  | cons r rs ih =>
    rw [List.foldl_cons]
    by_cases h : pairOk r
    · rw [pairUpdate_true_of h]
      simp [ih, h]
    · rw [pairUpdate_true_of_not h, foldl_pairUpdate_false]
      constructor
      · intro hc
        exact absurd hc (by decide)
      · intro hall
        exact absurd (hall r (List.mem_cons_self r rs)) h

/-! ## Claim theorems -/

/-- C2: the verification report prints overall status PASSED exactly when,
for every folder pair, the source and destination counts agree, the
missing-file set and the unexpected-file set are empty and the error list
is empty; in every other case it prints FAILED. -/
theorem C2_overall_status (rs : List VerificationResult) :
    (overallStatusLine rs = "PASSED" ↔
      ∀ r ∈ rs, r.source_count = r.destination_count ∧ r.missing_files = ∅ ∧
        r.unexpected_files = ∅ ∧ r.verification_errors = []) ∧
    (overallStatusLine rs = "PASSED" ∨ overallStatusLine rs = "FAILED") := by
  constructor
  · unfold overallStatusLine
    by_cases h : reportAllPassed rs = true
    · rw [if_pos h]
      simp only [true_iff]
      exact (reportAllPassed_iff rs).mp h
    · rw [if_neg h]
      constructor
      · intro hc; exact absurd hc (by decide)
      · intro hall
        exact absurd ((reportAllPassed_iff rs).mpr hall) h
  · unfold overallStatusLine
    by_cases h : reportAllPassed rs = true
    · exact Or.inl (if_pos h)
    · exact Or.inr (if_neg h)

/-- Closed witness for C2: a clean pair reports PASSED and a pair with a
missing file reports FAILED. -/
theorem C2_overall_status_witness :
    overallStatusLine
        [⟨1, 1, ∅, ∅, []⟩] = "PASSED" ∧
      overallStatusLine
        [⟨1, 0, {"a.txt"}, ∅, []⟩] = "FAILED" := by
  constructor
  · exact (C2_overall_status [⟨1, 1, ∅, ∅, []⟩]).1.mpr (by decide)
  · rcases (C2_overall_status [⟨1, 0, {"a.txt"}, ∅, []⟩]).2 with h | h
    · have := (C2_overall_status [⟨1, 0, {"a.txt"}, ∅, []⟩]).1.mp h
      have h1 := (this _ (List.mem_singleton.mpr rfl)).1
      simp at h1
    · exact h

/-- C7: converting a normalized box to absolute corners and back to
normalized center and size with the same image dimensions reproduces the
original values exactly, hence in particular within the two-decimal
rounding tolerance. -/
theorem C7_roundtrip (W H : ℕ) (hW : 0 < W) (hH : 0 < H) (xc yc w h : ℚ) :
    (xLeft W xc w + xRight W xc w) / (2 * W) = xc ∧
    (yTop H yc h + yBottom H yc h) / (2 * H) = yc ∧
    (xRight W xc w - xLeft W xc w) / W = w ∧
    (yBottom H yc h - yTop H yc h) / H = h := by
  have hW' : (W : ℚ) ≠ 0 := Nat.cast_ne_zero.mpr (by omega)
  have hH' : (H : ℚ) ≠ 0 := Nat.cast_ne_zero.mpr (by omega)
  refine ⟨?_, ?_, ?_, ?_⟩ <;>
    · simp only [xLeft, xRight, yTop, yBottom]
      field_simp
      ring

/-- Closed witness for C7 at the example box of the specification. -/
theorem C7_roundtrip_witness :
    (xLeft 100 (1/2) (1/5) + xRight 100 (1/2) (1/5)) / (2 * 100) = (1/2 : ℚ) ∧
    (yTop 200 (1/2) (2/5) + yBottom 200 (1/2) (2/5)) / (2 * 200) = (1/2 : ℚ) ∧
    (xRight 100 (1/2) (1/5) - xLeft 100 (1/2) (1/5)) / 100 = (1/5 : ℚ) ∧
    (yBottom 200 (1/2) (2/5) - yTop 200 (1/2) (2/5)) / 200 = (2/5 : ℚ) := by
  have h := C7_roundtrip 100 200 (by norm_num) (by norm_num) (1/2) (1/2) (1/5) (2/5)
  exact ⟨by exact_mod_cast h.1, by exact_mod_cast h.2.1,
    by exact_mod_cast h.2.2.1, by exact_mod_cast h.2.2.2⟩

/-- C8: for a normalized box with coordinates in the unit interval and
positive image dimensions, the converted corners are strictly ordered
whenever the normalized width and height are positive. -/
theorem C8_corner_order (W H : ℕ) (xc yc w h : ℚ)
    (_hxc0 : 0 ≤ xc) (_hxc1 : xc ≤ 1) (_hyc0 : 0 ≤ yc) (_hyc1 : yc ≤ 1)
    (_hw0 : 0 ≤ w) (_hw1 : w ≤ 1) (_hh0 : 0 ≤ h) (_hh1 : h ≤ 1)
    (hW : 0 < W) (hH : 0 < H) (hw : 0 < w) (hh : 0 < h) :
    xLeft W xc w < xRight W xc w ∧ yTop H yc h < yBottom H yc h := by
  have hW' : (0 : ℚ) < W := by exact_mod_cast hW
  have hH' : (0 : ℚ) < H := by exact_mod_cast hH
  constructor
  · unfold xLeft xRight
    have : xc - w / 2 < xc + w / 2 := by linarith
    exact mul_lt_mul_of_pos_right this hW'
  · unfold yTop yBottom
    have : yc - h / 2 < yc + h / 2 := by linarith
    exact mul_lt_mul_of_pos_right this hH'

/-- Closed witness for C8 at the example box of the specification. -/
theorem C8_corner_order_witness :
    xLeft 100 (1/2) (1/5) < xRight 100 (1/2) (1/5) ∧
    yTop 200 (1/2) (2/5) < yBottom 200 (1/2) (2/5) :=
  C8_corner_order 100 200 (1/2) (1/2) (1/5) (2/5)
    (by norm_num) (by norm_num) (by norm_num) (by norm_num)
    (by norm_num) (by norm_num) (by norm_num) (by norm_num)
    (by norm_num) (by norm_num) (by norm_num) (by norm_num)

/-- C9: the class-mapping lookup is total: an id present in the mapping
resolves to its mapped name and an absent id resolves to the sentinel
label `DontCare`; no input raises. -/
theorem C9_class_lookup (cm : List (String × String)) (k : String) :
    (∀ v, cm.lookup k = some v → classMappingGet cm k = v) ∧
    (cm.lookup k = none → classMappingGet cm k = "DontCare") := by
  constructor
  · intro v hv
    simp [classMappingGet, hv]
  · intro hv
    simp [classMappingGet, hv]

/-- Closed witness for C9 on a one-entry mapping: a present id and an
absent id. -/
theorem C9_class_lookup_witness :
    classMappingGet [("0", "licence_plate")] "0" = "licence_plate" ∧
    classMappingGet [("0", "licence_plate")] "7" = "DontCare" :=
  ⟨(C9_class_lookup [("0", "licence_plate")] "0").1 "licence_plate" (by decide),
    (C9_class_lookup [("0", "licence_plate")] "7").2 (by decide)⟩

/-- C10: in every verification record the difference of the counts equals
the difference of the sizes of the missing and unexpected sets, and when
both sets are empty the counts agree, making the separate count check of
the PASS condition redundant. -/
theorem C10_count_identity (srcL dstL : List String)
    (rf : String → List (List Char)) :
    (((verifyLabelsPair srcL dstL rf).source_count : ℤ) -
        ((verifyLabelsPair srcL dstL rf).destination_count : ℤ) =
      ((verifyLabelsPair srcL dstL rf).missing_files.card : ℤ) -
        ((verifyLabelsPair srcL dstL rf).unexpected_files.card : ℤ)) ∧
    ((verifyLabelsPair srcL dstL rf).missing_files = ∅ →
      (verifyLabelsPair srcL dstL rf).unexpected_files = ∅ →
      (verifyLabelsPair srcL dstL rf).source_count =
        (verifyLabelsPair srcL dstL rf).destination_count) := by
  set s : Finset String := (srcL.filter (fun f => endsTxt f)).toFinset with hs
  set t : Finset String := (dstL.filter (fun f => endsTxt f)).toFinset with ht
  have hproj : (verifyLabelsPair srcL dstL rf).source_count = s.card ∧
      (verifyLabelsPair srcL dstL rf).destination_count = t.card ∧
      (verifyLabelsPair srcL dstL rf).missing_files = s \ t ∧
      (verifyLabelsPair srcL dstL rf).unexpected_files = t \ s := by
    refine ⟨rfl, rfl, rfl, rfl⟩
  obtain ⟨h1, h2, h3, h4⟩ := hproj
  have e1 : (s \ t).card + (s ∩ t).card = s.card := Finset.card_sdiff_add_card_inter s t
  have e2 : (t \ s).card + (t ∩ s).card = t.card := Finset.card_sdiff_add_card_inter t s
  have e3 : (s ∩ t).card = (t ∩ s).card := by rw [Finset.inter_comm]
  constructor
  · rw [h1, h2, h3, h4]
    omega
  · intro hm hu
    rw [h3] at hm
    rw [h4] at hu
    have hm' : (s \ t).card = 0 := by rw [hm]; exact Finset.card_empty
    have hu' : (t \ s).card = 0 := by rw [hu]; exact Finset.card_empty
    rw [h1, h2]
    omega

/-- Closed witness for C10 on concrete listings with one matching file
and one unconverted extra source file. -/
theorem C10_count_identity_witness :
    (((verifyLabelsPair ["a.txt", "b.txt"] ["a.txt"] (fun _ => [])).source_count : ℤ) -
        ((verifyLabelsPair ["a.txt", "b.txt"] ["a.txt"] (fun _ => [])).destination_count : ℤ) =
      ((verifyLabelsPair ["a.txt", "b.txt"] ["a.txt"] (fun _ => [])).missing_files.card : ℤ) -
        ((verifyLabelsPair ["a.txt", "b.txt"] ["a.txt"] (fun _ => [])).unexpected_files.card : ℤ)) ∧
    (verifyLabelsPair ["a.txt"] ["a.txt"] (fun _ => [])).source_count =
      (verifyLabelsPair ["a.txt"] ["a.txt"] (fun _ => [])).destination_count :=
  ⟨(C10_count_identity ["a.txt", "b.txt"] ["a.txt"] (fun _ => [])).1,
    (C10_count_identity ["a.txt"] ["a.txt"] (fun _ => [])).2 (by decide) (by decide)⟩

/-! ## Helper lemmas about the per-line error counts -/

theorem count_fileLineErrors_lt (f : String) (ls : List (List Char)) :
    ∀ n k, k < n →
      (fileLineErrors f n ls).count (VError.badFormat f k) = 0 := by
  induction ls with
  | nil =>
    intro n k _h
    simp [fileLineErrors]
  | cons l ls ih =>
    intro n k h
    unfold fileLineErrors
    rw [List.count_append]
    have h1 : (if (pySplit l).length ≠ 15 then [VError.badFormat f n] else []).count
        (VError.badFormat f k) = 0 := by
      split
      · simp only [List.count_singleton]
        have hne : (VError.badFormat f n == VError.badFormat f k) = false := by
          simp only [beq_eq_false_iff_ne, ne_eq, VError.badFormat.injEq]
          intro hc
          omega
        rw [hne]
        rfl
      · simp
    rw [h1, ih (n + 1) k (by omega)]

theorem count_fileLineErrors (f : String) (ls : List (List Char)) :
    ∀ n i (h : i < ls.length),
      (fileLineErrors f n ls).count (VError.badFormat f (n + i)) =
        if (pySplit (ls.get ⟨i, h⟩)).length ≠ 15 then 1 else 0 := by
  induction ls with
  | nil =>
    intro n i h
    simp at h
  | cons l ls ih =>
    intro n i h
    cases i with
    | zero =>
      unfold fileLineErrors
      rw [List.count_append]
      have h2 : (fileLineErrors f (n + 1) ls).count (VError.badFormat f (n + 0)) = 0 :=
        count_fileLineErrors_lt f ls (n + 1) (n + 0) (by omega)
      rw [h2]
      simp only [List.get]
      split
      · simp
      · simp
    | succ j =>
      rw [List.length_cons] at h
      unfold fileLineErrors
      rw [List.count_append]
      have h1 : (if (pySplit l).length ≠ 15 then [VError.badFormat f n] else []).count
          (VError.badFormat f (n + (j + 1))) = 0 := by
        split
        · simp only [List.count_singleton]
          have hne : (VError.badFormat f n == VError.badFormat f (n + (j + 1))) = false := by
            simp only [beq_eq_false_iff_ne, ne_eq, VError.badFormat.injEq]
            intro hc
            omega
          rw [hne]
          rfl
        · simp
      rw [h1]
      have h3 := ih (n + 1) j (by omega)
      have h4 : n + 1 + j = n + (j + 1) := by omega
      rw [h4] at h3
      rw [h3]
      simp [List.get]

/-- C3: label verification records, for every line whose whitespace split
does not have exactly 15 tokens, exactly one error carrying the filename
and the 1-based line number; an empty file is recorded as the single
empty-file error; a 15-token line contributes no error. -/
theorem C3_label_format_errors (f : String) (lines : List (List Char)) :
    (lines = [] → labelFileErrors f lines = [VError.emptyFile f]) ∧
    (∀ i (h : i < lines.length),
      (labelFileErrors f lines).count (VError.badFormat f (i + 1)) =
        if (pySplit (lines.get ⟨i, h⟩)).length ≠ 15 then 1 else 0) := by
  constructor
  · intro h
    simp [labelFileErrors, h]
  · intro i h
    have hne : lines ≠ [] := by
      intro hc
      subst hc
      simp at h
    rw [labelFileErrors, if_neg hne]
    have hcount := count_fileLineErrors f lines 1 i h
    rwa [Nat.add_comm 1 i] at hcount

/-- Closed witness for C3: a two-line file whose second line has 14
tokens is flagged exactly once, at line number 2; the first line with 15
tokens is not flagged; an empty file yields the empty-file error. -/
theorem C3_label_format_errors_witness :
    (labelFileErrors "a.txt"
        ["Car 0.0 0 -1.0 1.00 2.00 3.00 4.00 0 0 0 0 0 0 0".toList,
          "Car 0.0 0 -1.0 1.00 2.00 3.00 4.00 0 0 0 0 0 0".toList]).count
      (VError.badFormat "a.txt" 2) = 1 ∧
    (labelFileErrors "a.txt"
        ["Car 0.0 0 -1.0 1.00 2.00 3.00 4.00 0 0 0 0 0 0 0".toList,
          "Car 0.0 0 -1.0 1.00 2.00 3.00 4.00 0 0 0 0 0 0".toList]).count
      (VError.badFormat "a.txt" 1) = 0 ∧
    labelFileErrors "b.txt" [] = [VError.emptyFile "b.txt"] := by
  refine ⟨?_, ?_, (C3_label_format_errors "b.txt" []).1 rfl⟩
  · have h := (C3_label_format_errors "a.txt"
        ["Car 0.0 0 -1.0 1.00 2.00 3.00 4.00 0 0 0 0 0 0 0".toList,
          "Car 0.0 0 -1.0 1.00 2.00 3.00 4.00 0 0 0 0 0 0".toList]).2 1 (by norm_num)
    rw [h]
    decide
  · have h := (C3_label_format_errors "a.txt"
        ["Car 0.0 0 -1.0 1.00 2.00 3.00 4.00 0 0 0 0 0 0 0".toList,
          "Car 0.0 0 -1.0 1.00 2.00 3.00 4.00 0 0 0 0 0 0".toList]).2 0 (by norm_num)
    rw [h]
    decide

/-! ## Helper lemmas about the processing loop -/

theorem runFile_ok {W H : ℕ} {cm : List (String × String)} {lines : List (List Char)}
    (h : ∀ l ∈ lines, (convertLine W H cm l).isSome = true) :
    (runFile W H cm lines).2 = false := by
  induction lines with
  | nil => rfl
  | cons l ls ih =>
    have hl := h l (List.mem_cons_self l ls)
    cases hc : convertLine W H cm l with
    | none =>
      rw [hc] at hl
      simp at hl
    | some k =>
      simp only [runFile, hc]
      exact ih (fun x hx => h x (List.mem_cons_of_mem l hx))

theorem runFile_abort {W H : ℕ} {cm : List (String × String)} {lines : List (List Char)}
    (h : ∃ l ∈ lines, convertLine W H cm l = none) :
    (runFile W H cm lines).2 = true := by
  induction lines with
  | nil => simp at h
  | cons l ls ih =>
    cases hc : convertLine W H cm l with
    | none => simp [runFile, hc]
    | some k =>
      simp only [runFile, hc]
      rcases h with ⟨x, hx, hnone⟩
      rcases List.mem_cons.mp hx with rfl | hx'
      · rw [hc] at hnone
        exact absurd hnone (by simp)
      · exact ih ⟨x, hx', hnone⟩

/-- C5 (amended): the destination label file holds exactly the KITTI
lines of the label lines converted before the first failure, so a run
aborted mid-file can leave a proper nonempty prefix while a run that
finishes the file writes one line per source line. -/
theorem C5_written_lines (W H : ℕ) (cm : List (String × String))
    (lines : List (List Char)) :
    ((runFile W H cm lines).1 =
      ((lines.map (convertLine W H cm)).takeWhile Option.isSome).filterMap id) ∧
    ((runFile W H cm lines).2 = false →
      (runFile W H cm lines).1.length = lines.length) := by
  induction lines with
  | nil => exact ⟨rfl, fun _ => rfl⟩
  | cons l ls ih =>
    cases hc : convertLine W H cm l with
    | none =>
      constructor
      · simp [runFile, hc]
      · intro hfl
        simp [runFile, hc] at hfl
    | some k =>
      constructor
      · simp [runFile, hc, ih.1]
      · intro hfl
        simp only [runFile, hc] at hfl ⊢
        simp [ih.2 hfl]

/-- Closed counterexample for C5 as stated: a two-line label file whose
second line is malformed aborts mid-file with the destination file
touched but holding only one of the two lines, a proper nonempty
prefix. -/
theorem C5_partial_write_counterexample :
    (runFile 100 200 [] ["0 0.5 0.5 0.2 0.4".toList, "0 a b c d".toList]).2 = true ∧
    (runFile 100 200 [] ["0 0.5 0.5 0.2 0.4".toList, "0 a b c d".toList]).1 ≠ [] ∧
    (runFile 100 200 [] ["0 0.5 0.5 0.2 0.4".toList, "0 a b c d".toList]).1.length <
      (["0 0.5 0.5 0.2 0.4".toList, "0 a b c d".toList] : List (List Char)).length := by
  refine ⟨?_, ?_, ?_⟩ <;> decide

/-- Closed witness for C5 (amended) at a concrete aborted file and a
concrete completed file. -/
theorem C5_written_lines_witness :
    ((runFile 100 200 [] ["0 0.5 0.5 0.2 0.4".toList, "0 a b c d".toList]).1 =
      (((["0 0.5 0.5 0.2 0.4".toList, "0 a b c d".toList] : List (List Char)).map
        (convertLine 100 200 [])).takeWhile Option.isSome).filterMap id) ∧
    (runFile 100 200 [] ["0 0.5 0.5 0.2 0.4".toList]).1.length =
      (["0 0.5 0.5 0.2 0.4".toList] : List (List Char)).length :=
  ⟨(C5_written_lines 100 200 [] _).1,
    (C5_written_lines 100 200 [] ["0 0.5 0.5 0.2 0.4".toList]).2 (by decide)⟩

/-- C6: a malformed label line is not skipped and produces no per-file
error record; it aborts the run, so of the batch only the files before
the failing one and the partially written failing file itself reach the
destination, and the files after it are never processed. -/
theorem C6_malformed_aborts (W H : ℕ) (cm : List (String × String))
    (pre : List (String × List (List Char))) (nm : String)
    (badLines : List (List Char)) (post : List (String × List (List Char)))
    (hpre : ∀ p ∈ pre, ∀ l ∈ p.2, (convertLine W H cm l).isSome = true)
    (hbad : ∃ l ∈ badLines, convertLine W H cm l = none) :
    (runBatch W H cm (pre ++ (nm, badLines) :: post)).2 = true ∧
    (runBatch W H cm (pre ++ (nm, badLines) :: post)).1.length = pre.length + 1 := by
  induction pre with
  | nil =>
    have hab := runFile_abort hbad
    constructor
    · simp [runBatch, hab]
    · simp [runBatch, hab]
  | cons p ps ih =>
    have hok : (runFile W H cm p.2).2 = false :=
      runFile_ok (hpre p (List.mem_cons_self p ps))
    have ih' := ih (fun q hq l hl => hpre q (List.mem_cons_of_mem p hq) l hl)
    constructor
    · simp [runBatch, hok, ih'.1]
    · simp [runBatch, hok, ih'.2]

/-- Closed witness for C6: of a three-file batch whose middle file has a
malformed line, only the first file and the partial middle file are
written and the run is aborted. -/
theorem C6_malformed_aborts_witness :
    (runBatch 100 200 [] ([("a.txt", ["0 0.5 0.5 0.2 0.4".toList])] ++
        ("b.txt", ["0 a b c d".toList]) ::
          [("c.txt", ["0 0.5 0.5 0.2 0.4".toList])])).2 = true ∧
    (runBatch 100 200 [] ([("a.txt", ["0 0.5 0.5 0.2 0.4".toList])] ++
        ("b.txt", ["0 a b c d".toList]) ::
          [("c.txt", ["0 0.5 0.5 0.2 0.4".toList])])).1.length =
      ([("a.txt", ["0 0.5 0.5 0.2 0.4".toList])] :
        List (String × List (List Char))).length + 1 :=
  C6_malformed_aborts 100 200 [] _ "b.txt" _ _ (by decide) (by decide)

/-! ## Concrete evaluations shared by the example-based claims -/

theorem parseFloat_half : parseFloat? "0.5".toList = some (1/2 : ℚ) := by
  have h : parseFloatParts? "0.5".toList = some (false, 0, 5, 1) := by decide
  rw [parseFloat?, h]
  norm_num [ratOfFloatParts]

theorem parseFloat_fifth : parseFloat? "0.2".toList = some (1/5 : ℚ) := by
  have h : parseFloatParts? "0.2".toList = some (false, 0, 2, 1) := by decide
  rw [parseFloat?, h]
  norm_num [ratOfFloatParts]

theorem parseFloat_twoFifths : parseFloat? "0.4".toList = some (2/5 : ℚ) := by
  have h : parseFloatParts? "0.4".toList = some (false, 0, 4, 1) := by decide
  rw [parseFloat?, h]
  norm_num [ratOfFloatParts]

theorem parseYoloLine_example :
    parseYoloLine? ("0 0.5 0.5 0.2 0.4".toList) =
      some (0, 1/2, 1/2, 1/5, 2/5) := by
  unfold parseYoloLine?
  rw [show pySplit ("0 0.5 0.5 0.2 0.4".toList) =
    [['0'], "0.5".toList, "0.5".toList, "0.2".toList, "0.4".toList] from by decide]
  simp only [parseFloat_half, parseFloat_fifth, parseFloat_twoFifths,
    show parseInt? ['0'] = some (0 : ℤ) from by decide]

theorem fmt2_forty : fmt2 (40 : ℚ) = "40.00".toList := by
  unfold fmt2
  rw [show round ((40 : ℚ) * 100) = (4000 : ℤ) from by norm_num [round_eq]]
  decide

theorem fmt2_sixty : fmt2 (60 : ℚ) = "60.00".toList := by
  unfold fmt2
  rw [show round ((60 : ℚ) * 100) = (6000 : ℤ) from by norm_num [round_eq]]
  decide

theorem fmt2_one_forty : fmt2 (140 : ℚ) = "140.00".toList := by
  unfold fmt2
  rw [show round ((140 : ℚ) * 100) = (14000 : ℤ) from by norm_num [round_eq]]
  decide

theorem xLeft_example : xLeft 100 (1/2) (1/5) = 40 := by
  unfold xLeft
  norm_num

theorem yTop_example : yTop 200 (1/2) (2/5) = 60 := by
  unfold yTop
  norm_num

theorem xRight_example : xRight 100 (1/2) (1/5) = 60 := by
  unfold xRight
  norm_num

theorem yBottom_example : yBottom 200 (1/2) (2/5) = 140 := by
  unfold yBottom
  norm_num

/-- Full evaluation of the converter on the example box of the
specification (class 0, centered box of normalized size one fifth by two
fifths on a 100 by 200 image, empty class mapping). -/
theorem convertLine_example :
    convertLine 100 200 [] ("0 0.5 0.5 0.2 0.4".toList) =
      some ("DontCare 0.0 0 -1.0 40.00 60.00 60.00 140.00 0 0 0 0 0 0 0\n".toList) := by
  unfold convertLine
  rw [parseYoloLine_example]
  simp only [Option.map_some']
  rw [show classMappingGet [] (toString (0 : ℤ)) = "DontCare" from by decide]
  rw [xLeft_example, yTop_example, xRight_example, yBottom_example]
  unfold kittiLine
  simp only [fmt2_forty, fmt2_sixty, fmt2_one_forty]
  decide

/-- C1 (amended): the converter computes the four corner formulas of the
specification, and on the example box (class 0, xc = yc = 0.5, w = 0.2,
h = 0.4) with a 100 by 200 image it produces x_left = 40.00,
y_top = 60.00, x_right = 60.00, y_bottom = 140.00. -/
theorem C1_conversion_formula :
    (∀ (W H : ℕ) (xc yc w h : ℚ),
      convertCorners W H xc yc w h = specCorners W H xc yc w h) ∧
    convertCorners 100 200 (1/2) (1/2) (1/5) (2/5) = (40, 60, 60, 140) ∧
    convertLine 100 200 [] ("0 0.5 0.5 0.2 0.4".toList) =
      some ("DontCare 0.0 0 -1.0 40.00 60.00 60.00 140.00 0 0 0 0 0 0 0\n".toList) := by
  refine ⟨fun W H xc yc w h => rfl, ?_, convertLine_example⟩
  unfold convertCorners
  rw [xLeft_example, yTop_example, xRight_example, yBottom_example]

/-- Closed counterexample for C1 as stated: on the example input the code
computes y_top = 60 and y_bottom = 140, not the claimed 10 and 90. -/
theorem C1_example_counterexample :
    convertCorners 100 200 (1/2) (1/2) (1/5) (2/5) ≠
      ((40 : ℚ), (10 : ℚ), (60 : ℚ), (90 : ℚ)) := by
  unfold convertCorners
  rw [xLeft_example, yTop_example, xRight_example, yBottom_example]
  intro hc
  have h10 := congrArg (fun p : ℚ × ℚ × ℚ × ℚ => p.2.1) hc
  norm_num at h10

/-! ## Helper lemma about association-list lookup -/

theorem lookup_mem_values {cm : List (String × String)} {k v : String}
    (h : cm.lookup k = some v) : v ∈ cm.map Prod.snd := by
  induction cm with
  | nil => simp [List.lookup] at h
  | cons p ps ih =>
    obtain ⟨k', v'⟩ := p
    rw [List.lookup] at h
    cases hk : (k == k') with
    | true =>
      simp only [hk] at h
      rw [Option.some_inj] at h
      subst h
      simp
    | false =>
      simp only [hk] at h
      simp only [List.map_cons, List.mem_cons]
      exact Or.inr (ih h)

/-- C4 (amended): when every class name of the mapping is nonempty and
free of whitespace (as the sentinel `DontCare` is), every line the
converter emits splits into exactly 15 whitespace-separated fields and
hence passes the 15-token structural check of the verifier. -/
theorem C4_fifteen_tokens (W H : ℕ) (cm : List (String × String))
    (raw line : List Char)
    (hnames : ∀ nm ∈ cm.map Prod.snd,
      nm.toList ≠ [] ∧ ∀ c ∈ nm.toList, c.isWhitespace = false)
    (hline : convertLine W H cm raw = some line) :
    (pySplit line).length = 15 := by
  unfold convertLine at hline
  cases hp : parseYoloLine? raw with
  | none =>
    rw [hp] at hline
    simp at hline
  | some t =>
    rw [hp] at hline
    simp only [Option.map_some'] at hline
    rw [Option.some_inj] at hline
    have hcn : (classMappingGet cm (toString t.1)).toList ≠ [] ∧
        ∀ c ∈ (classMappingGet cm (toString t.1)).toList, c.isWhitespace = false := by
      unfold classMappingGet
      cases hl : cm.lookup (toString t.1) with
      | none =>
        simp only [Option.getD_none]
        constructor
        · decide
        · decide
      | some v =>
        simp only [Option.getD_some]
        exact hnames v (lookup_mem_values hl)
    rw [← hline, pySplit_kittiLine, pySplit_single hcn.1 hcn.2]
    simp

/-- Closed counterexample for C4 as stated: with a user-supplied class
name containing a space the converter emits a 16-token line. -/
theorem C4_sixteen_tokens_counterexample :
    (convertLine 100 200 [("0", "license plate")]
        ("0 0.5 0.5 0.2 0.4".toList)).map (fun l => (pySplit l).length) =
      some 16 := by
  unfold convertLine
  rw [parseYoloLine_example]
  simp only [Option.map_some']
  rw [show classMappingGet [("0", "license plate")] (toString (0 : ℤ)) =
    "license plate" from by decide]
  rw [pySplit_kittiLine]
  rw [show pySplit ("license plate".toList) =
    ["license".toList, "plate".toList] from by decide]
  simp

/-- Closed witness for C4 (amended) on the fully evaluated example
line. -/
theorem C4_fifteen_tokens_witness :
    (pySplit ("DontCare 0.0 0 -1.0 40.00 60.00 60.00 140.00 0 0 0 0 0 0 0\n".toList)).length
      = 15 :=
  C4_fifteen_tokens 100 200 [] ("0 0.5 0.5 0.2 0.4".toList) _ (by simp)
    convertLine_example

end YoloToKitti
